import Mathlib

/-!
Verification of the fallback/retry orchestrator in `src/llm/main.py`
(`talk-with-pucha`).  The endpoint `generate` iterates a configured list of
candidate model identifiers, issues one upstream chat-completion call per
candidate, classifies each outcome, and returns either the first successful
text or the last recorded error kind.

The embedding is shallow: the upstream client is an arbitrary function from
the payload sent upstream to an attempt outcome (timeout, transport error, or
an HTTP response with a status code and a body).  The orchestrator is a pure
recursion over the candidate list.  Alongside the result we record the exact
list of payloads sent upstream, in call order, so that claims about call
counts and payload contents can be stated.  A Python exception escaping the
handler (the `IndexError` possible in text extraction) is modelled as
`Except.error`; a normal return is `Except.ok`.
-/

namespace TalkWithPucha

/-- Mirrors the pydantic `Message` model: a role and a content string. -/
structure Message where
  role : String
  content : String
deriving Repr, DecidableEq

/-- Mirrors the pydantic `LlmRequest` model: messages plus a requested
`max_tokens`, an arbitrary Python `int` (no positivity constraint). -/
structure LlmRequest where
  messages : List Message
  max_tokens : Int
deriving Repr, DecidableEq

/-- The JSON payload the loop builds for each candidate (line 58-62 of
`main.py`). -/
structure Payload where
  model : String
  messages : List Message
  max_tokens : Int
deriving Repr, DecidableEq

/-- The `message` object inside a choice; `content` is `none` when the key is
absent (or JSON null), otherwise the string value. -/
structure Msg where
  content : Option String
deriving Repr, DecidableEq

/-- One entry of the `choices` list; `message` is `none` when the key is
absent. -/
structure Choice where
  message : Option Msg
deriving Repr, DecidableEq

/-- The parts of the upstream response body read by the handler:
`choices` is `none` when the key is absent, otherwise the list value. -/
structure Body where
  choices : Option (List Choice)
deriving Repr, DecidableEq

/-- Outcome of one `client.post` call: `httpx.TimeoutException`,
another `httpx.RequestError`, or a response with status code and body. -/
inductive Attempt where
  | timeout
  | transportError
  | response (status : Nat) (body : Body)
deriving Repr, DecidableEq

/-- The two shapes the handler returns: `{text, model_used}` or
`{error_type}`. -/
inductive GenResult where
  | success (text : String) (model_used : String)
  | failure (error_type : String)
deriving Repr, DecidableEq

/-- `choice.get("message", {}).get("content", "")` followed by Python string
truthiness later: an absent message or absent content yields `""`. -/
def contentOf (c : Choice) : String :=
  match c.message with
  | none => ""
  | some m => m.content.getD ""

/-- `data.get("choices", [{}])[0].get("message", {}).get("content", "")`
(line 74).  An absent `choices` key defaults to `[{}]`, whose first element
has no `message`, giving `""`.  A present but EMPTY `choices` list makes
`[0]` raise `IndexError`, modelled as `Except.error ()`. -/
def extractText (b : Body) : Except Unit String :=
  match b.choices with
  | none => .ok ""
  | some [] => .error ()
  | some (c :: _) => .ok (contentOf c)

/-- Line 58-62: the payload for one candidate; `max_tokens` is
`min(request.max_tokens, MAX_OUTPUT_TOKENS)`. -/
def buildPayload (model : String) (req : LlmRequest) (ceiling : Int) : Payload :=
  { model := model
    messages := req.messages
    max_tokens := min req.max_tokens ceiling }

/-- The candidate loop of lines 57-89, with `lastError` the running
`last_error` variable.  Returns the payloads sent upstream in order, and the
handler's outcome (`Except.error` when the `IndexError` of `extractText`
escapes). -/
def generateFrom (upstream : Payload → Attempt) (req : LlmRequest) (ceiling : Int) :
    List String → String → List Payload × Except Unit GenResult
  | [], lastError => ([], .ok (.failure lastError))
  | model :: rest, _lastError =>
    let p := buildPayload model req ceiling
    match upstream p with
    | .timeout =>
      let r := generateFrom upstream req ceiling rest "timeout"
      (p :: r.1, r.2)
    | .transportError =>
      let r := generateFrom upstream req ceiling rest "upstream_error"
      (p :: r.1, r.2)
    | .response status body =>
      if status = 200 then
        match extractText body with
        | .error e => ([p], .error e)
        | .ok text =>
          if text ≠ "" then ([p], .ok (.success text model))
          else ([p], .ok (.failure "failed"))
      else if status = 429 then
        let r := generateFrom upstream req ceiling rest "rate_limited"
        (p :: r.1, r.2)
      else if 500 ≤ status ∧ status < 600 then
        let r := generateFrom upstream req ceiling rest "upstream_error"
        (p :: r.1, r.2)
      else ([p], .ok (.failure "failed"))

/-- The whole handler (lines 46-91): the empty-candidates guard of line 47
returns `{"error_type": "failed"}` with no upstream call; otherwise the loop
runs with `last_error` initialised to `"failed"` (line 55). -/
def generate (upstream : Payload → Attempt) (req : LlmRequest)
    (candidates : List String) (ceiling : Int) :
    List Payload × Except Unit GenResult :=
  if candidates.isEmpty then ([], .ok (.failure "failed"))
  else generateFrom upstream req ceiling candidates "failed"

/-- A transient attempt outcome: one the loop absorbs and continues past
(timeout, transport error, HTTP 429, HTTP 5xx). -/
def isTransient : Attempt → Bool
  | .timeout => true
  | .transportError => true
  | .response status _ => status = 429 || (500 ≤ status && status < 600)

/-- The error kind the loop records for a transient outcome. -/
def transientKind : Attempt → String
  | .timeout => "timeout"
  | .transportError => "upstream_error"
  | .response status _ => if status = 429 then "rate_limited" else "upstream_error"

/-! ### Unfolding lemmas: one per row of the classification table -/

/-- Timeout: record `"timeout"` and continue with the remaining candidates. -/
theorem generateFrom_cons_timeout (u : Payload → Attempt) (req : LlmRequest)
    (c : Int) (m : String) (rest : List String) (e : String)
    (h : u (buildPayload m req c) = .timeout) :
    generateFrom u req c (m :: rest) e =
      (buildPayload m req c :: (generateFrom u req c rest "timeout").1,
       (generateFrom u req c rest "timeout").2) := by
  simp [generateFrom, h]

/-- Transport error: record `"upstream_error"` and continue. -/
theorem generateFrom_cons_transport (u : Payload → Attempt) (req : LlmRequest)
    (c : Int) (m : String) (rest : List String) (e : String)
    (h : u (buildPayload m req c) = .transportError) :
    generateFrom u req c (m :: rest) e =
      (buildPayload m req c :: (generateFrom u req c rest "upstream_error").1,
       (generateFrom u req c rest "upstream_error").2) := by
  simp [generateFrom, h]

/-- HTTP 200 with non-empty extracted text: stop with Success. -/
theorem generateFrom_cons_ok (u : Payload → Attempt) (req : LlmRequest)
    (c : Int) (m : String) (rest : List String) (e : String) (body : Body)
    (t : String)
    (h : u (buildPayload m req c) = .response 200 body)
    (ht : extractText body = .ok t) (hne : t ≠ "") :
    generateFrom u req c (m :: rest) e =
      ([buildPayload m req c], .ok (.success t m)) := by
  simp [generateFrom, h, ht, hne]

/-- HTTP 200 with empty extracted text: stop with Failure `"failed"`. -/
theorem generateFrom_cons_empty (u : Payload → Attempt) (req : LlmRequest)
    (c : Int) (m : String) (rest : List String) (e : String) (body : Body)
    (h : u (buildPayload m req c) = .response 200 body)
    (ht : extractText body = .ok "") :
    generateFrom u req c (m :: rest) e =
      ([buildPayload m req c], .ok (.failure "failed")) := by
  simp [generateFrom, h, ht]

/-- HTTP 200 with an empty `choices` list: the IndexError escapes. -/
theorem generateFrom_cons_exn (u : Payload → Attempt) (req : LlmRequest)
    (c : Int) (m : String) (rest : List String) (e : String) (body : Body)
    (h : u (buildPayload m req c) = .response 200 body)
    (ht : extractText body = .error ()) :
    generateFrom u req c (m :: rest) e =
      ([buildPayload m req c], .error ()) := by
  simp [generateFrom, h, ht]

/-- HTTP 429: record `"rate_limited"` and continue. -/
theorem generateFrom_cons_429 (u : Payload → Attempt) (req : LlmRequest)
    (c : Int) (m : String) (rest : List String) (e : String) (body : Body)
    (h : u (buildPayload m req c) = .response 429 body) :
    generateFrom u req c (m :: rest) e =
      (buildPayload m req c :: (generateFrom u req c rest "rate_limited").1,
       (generateFrom u req c rest "rate_limited").2) := by
  simp [generateFrom, h]

/-- HTTP 5xx: record `"upstream_error"` and continue. -/
theorem generateFrom_cons_5xx (u : Payload → Attempt) (req : LlmRequest)
    (c : Int) (m : String) (rest : List String) (e : String) (body : Body)
    (status : Nat) (h5 : 500 ≤ status) (h6 : status < 600)
    (h : u (buildPayload m req c) = .response status body) :
    generateFrom u req c (m :: rest) e =
      (buildPayload m req c :: (generateFrom u req c rest "upstream_error").1,
       (generateFrom u req c rest "upstream_error").2) := by
  have h200 : status ≠ 200 := by omega
  have h429 : status ≠ 429 := by omega
  simp [generateFrom, h, h200, h429, h5, h6]

/-- Any other HTTP status: stop with Failure `"failed"`. -/
theorem generateFrom_cons_other (u : Payload → Attempt) (req : LlmRequest)
    (c : Int) (m : String) (rest : List String) (e : String) (body : Body)
    (status : Nat) (h200 : status ≠ 200) (h429 : status ≠ 429)
    (h5xx : ¬(500 ≤ status ∧ status < 600))
    (h : u (buildPayload m req c) = .response status body) :
    generateFrom u req c (m :: rest) e =
      ([buildPayload m req c], .ok (.failure "failed")) := by
  simp [generateFrom, h, h200, h429, h5xx]

/-- Any transient outcome continues, recording its `transientKind`. -/
theorem generateFrom_cons_transient (u : Payload → Attempt) (req : LlmRequest)
    (c : Int) (m : String) (rest : List String) (e : String)
    (h : isTransient (u (buildPayload m req c)) = true) :
    generateFrom u req c (m :: rest) e =
      (buildPayload m req c ::
        (generateFrom u req c rest (transientKind (u (buildPayload m req c)))).1,
       (generateFrom u req c rest (transientKind (u (buildPayload m req c)))).2) := by
  cases ha : u (buildPayload m req c) with
  | timeout =>
    simpa [transientKind] using generateFrom_cons_timeout u req c m rest e ha
  | transportError =>
    simpa [transientKind] using generateFrom_cons_transport u req c m rest e ha
  | response status body =>
    rw [ha] at h
    have h2 : status = 429 ∨ (500 ≤ status ∧ status < 600) := by
      simpa [isTransient] using h
    rcases h2 with h429 | ⟨h5, h6⟩
    · subst h429
      simpa [transientKind] using generateFrom_cons_429 u req c m rest e body ha
    · have h429 : status ≠ 429 := by omega
      simpa [transientKind, h429] using
        generateFrom_cons_5xx u req c m rest e body status h5 h6 ha

/-- The value of Python's `last_error` after a run of transient candidates
starting from `e`: the kind of the last one, or `e` if there were none. -/
def lastErrorAfter (u : Payload → Attempt) (req : LlmRequest) (c : Int)
    (pre : List String) (e : String) : String :=
  pre.foldl (fun _ m => transientKind (u (buildPayload m req c))) e

/-- A run of transient candidates is traversed wholesale: every one is
called, and the loop continues on the suffix with the updated `last_error`. -/
theorem generateFrom_append_transient (u : Payload → Attempt) (req : LlmRequest)
    (c : Int) :
    ∀ (pre rest : List String) (e : String),
      (∀ m ∈ pre, isTransient (u (buildPayload m req c)) = true) →
      generateFrom u req c (pre ++ rest) e =
        ((pre.map fun m => buildPayload m req c) ++
            (generateFrom u req c rest (lastErrorAfter u req c pre e)).1,
         (generateFrom u req c rest (lastErrorAfter u req c pre e)).2) := by
  intro pre
  induction pre with
  | nil => intro rest e _; simp [lastErrorAfter]
  | cons m pre2 ih =>
    intro rest e h
    have hm := h m (List.mem_cons_self m pre2)
    rw [List.cons_append, generateFrom_cons_transient u req c m (pre2 ++ rest) e hm,
      ih rest (transientKind (u (buildPayload m req c)))
        (fun x hx => h x (List.mem_cons_of_mem m hx))]
    simp [lastErrorAfter]

/-- Exhaustive description of one loop iteration: a non-empty candidate list
either stops at its head (Success, Failure `"failed"`, or the escaping
IndexError) or continues on the tail with a transient error kind recorded. -/
theorem generateFrom_cons_shape (u : Payload → Attempt) (req : LlmRequest)
    (c : Int) (m : String) (rest : List String) (e : String) :
    (∃ body t, u (buildPayload m req c) = .response 200 body ∧
        extractText body = .ok t ∧ t ≠ "" ∧
        generateFrom u req c (m :: rest) e =
          ([buildPayload m req c], .ok (.success t m))) ∨
    (generateFrom u req c (m :: rest) e =
        ([buildPayload m req c], .ok (.failure "failed"))) ∨
    (∃ body, u (buildPayload m req c) = .response 200 body ∧
        extractText body = .error () ∧
        generateFrom u req c (m :: rest) e =
          ([buildPayload m req c], .error ())) ∨
    (∃ e2, (e2 = "timeout" ∨ e2 = "upstream_error" ∨ e2 = "rate_limited") ∧
        generateFrom u req c (m :: rest) e =
          (buildPayload m req c :: (generateFrom u req c rest e2).1,
           (generateFrom u req c rest e2).2)) := by
  cases ha : u (buildPayload m req c) with
  | timeout =>
    exact .inr (.inr (.inr ⟨"timeout", .inl rfl,
      generateFrom_cons_timeout u req c m rest e ha⟩))
  | transportError =>
    exact .inr (.inr (.inr ⟨"upstream_error", .inr (.inl rfl),
      generateFrom_cons_transport u req c m rest e ha⟩))
  | response status body =>
    by_cases h200 : status = 200
    · subst h200
      cases ht : extractText body with
      | error err =>
        cases err
        exact .inr (.inr (.inl ⟨body, rfl, ht,
          generateFrom_cons_exn u req c m rest e body ha ht⟩))
      | ok t =>
        by_cases hte : t = ""
        · subst hte
          exact .inr (.inl (generateFrom_cons_empty u req c m rest e body ha ht))
        · exact .inl ⟨body, t, rfl, ht, hte,
            generateFrom_cons_ok u req c m rest e body t ha ht hte⟩
    · by_cases h429 : status = 429
      · subst h429
        exact .inr (.inr (.inr ⟨"rate_limited", .inr (.inr rfl),
          generateFrom_cons_429 u req c m rest e body ha⟩))
      · by_cases h5 : 500 ≤ status ∧ status < 600
        · exact .inr (.inr (.inr ⟨"upstream_error", .inr (.inl rfl),
            generateFrom_cons_5xx u req c m rest e body status h5.1 h5.2 ha⟩))
        · exact .inr (.inl (generateFrom_cons_other u req c m rest e body status
            h200 h429 h5 ha))

/-- Every payload the loop sends upstream is the payload built for one of the
candidates. -/
theorem mem_calls (u : Payload → Attempt) (req : LlmRequest) (c : Int) :
    ∀ (cs : List String) (e : String) (p : Payload),
      p ∈ (generateFrom u req c cs e).1 →
      ∃ m, m ∈ cs ∧ p = buildPayload m req c := by
  intro cs
  induction cs with
  | nil => intro e p hp; simp [generateFrom] at hp
  | cons m rest ih =>
    intro e p hp
    rcases generateFrom_cons_shape u req c m rest e with
      ⟨body, t, _, _, _, heq⟩ | heq | ⟨body, _, _, heq⟩ | ⟨e2, _, heq⟩ <;>
      rw [heq] at hp
    · exact ⟨m, List.mem_cons_self m rest, by simpa using hp⟩
    · exact ⟨m, List.mem_cons_self m rest, by simpa using hp⟩
    · exact ⟨m, List.mem_cons_self m rest, by simpa using hp⟩
    · rcases List.mem_cons.mp hp with hp | hp
      · exact ⟨m, List.mem_cons_self m rest, hp⟩
      · obtain ⟨m2, hm2, hpe⟩ := ih e2 p hp
        exact ⟨m2, List.mem_cons_of_mem m hm2, hpe⟩

/-- A non-empty candidate list always produces at least one upstream call. -/
theorem calls_ne_nil (u : Payload → Attempt) (req : LlmRequest) (c : Int)
    (m : String) (rest : List String) (e : String) :
    (generateFrom u req c (m :: rest) e).1 ≠ [] := by
  rcases generateFrom_cons_shape u req c m rest e with
    ⟨body, t, _, _, _, heq⟩ | heq | ⟨body, _, _, heq⟩ | ⟨e2, _, heq⟩ <;>
    simp [heq]

/-! ### Claims -/

/-- C1: if candidate `winner` (preceded by candidates `pre`, all of which
yield a transient condition — timeout, transport error, 429, or 5xx) yields
HTTP 200 with non-empty extracted text `t`, then `generate` returns Success
with `model_used = winner` and text `t`, and the upstream calls are exactly
those for `pre` and `winner`: no candidate after `winner` is called. -/
theorem c1_fallback_success (u : Payload → Attempt) (req : LlmRequest) (c : Int)
    (pre post : List String) (winner : String) (body : Body) (t : String)
    (hpre : ∀ m ∈ pre, isTransient (u (buildPayload m req c)) = true)
    (hw : u (buildPayload winner req c) = .response 200 body)
    (ht : extractText body = .ok t) (hne : t ≠ "") :
    generate u req (pre ++ winner :: post) c =
      ((pre.map fun m => buildPayload m req c) ++ [buildPayload winner req c],
       .ok (.success t winner)) := by
  rw [generate, if_neg (by simp)]
  rw [generateFrom_append_transient u req c pre (winner :: post) "failed" hpre,
    generateFrom_cons_ok u req c winner post
      (lastErrorAfter u req c pre "failed") body t hw ht hne]

/-- Witness for C1 at a concrete stub: first candidate times out, second
answers 200 with text `"hi"`, third is never consulted. -/
theorem c1_witness :
    generate
      (fun p => if p.model = "a" then Attempt.timeout
        else .response 200 ⟨some [⟨some ⟨some "hi"⟩⟩]⟩)
      ⟨[⟨"user", "q"⟩], 100⟩ (["a"] ++ "b" :: ["c"]) 600 =
      ((["a"].map fun m => buildPayload m ⟨[⟨"user", "q"⟩], 100⟩ 600) ++
        [buildPayload "b" ⟨[⟨"user", "q"⟩], 100⟩ 600],
       .ok (.success "hi" "b")) :=
  c1_fallback_success
    (fun p => if p.model = "a" then Attempt.timeout
      else .response 200 ⟨some [⟨some ⟨some "hi"⟩⟩]⟩)
    ⟨[⟨"user", "q"⟩], 100⟩ 600 ["a"] ["c"] "b"
    ⟨some [⟨some ⟨some "hi"⟩⟩]⟩ "hi" (by decide) (by decide) rfl
    (by decide)

/-- C2: if every candidate in the non-empty list `init ++ [lastm]` yields a
transient condition, `generate` returns Failure whose `error_type` is the
classification of the last candidate, and exactly one upstream call is made
per candidate, in list order. -/
theorem c2_all_transient (u : Payload → Attempt) (req : LlmRequest) (c : Int)
    (init : List String) (lastm : String)
    (h : ∀ m ∈ init ++ [lastm], isTransient (u (buildPayload m req c)) = true) :
    generate u req (init ++ [lastm]) c =
      ((init ++ [lastm]).map fun m => buildPayload m req c,
       .ok (.failure (transientKind (u (buildPayload lastm req c))))) := by
  rw [generate, if_neg (by simp)]
  rw [generateFrom_append_transient u req c init [lastm] "failed"
    (fun m hm => h m (List.mem_append_left _ hm))]
  rw [generateFrom_cons_transient u req c lastm []
    (lastErrorAfter u req c init "failed") (h lastm (by simp))]
  simp [generateFrom]

/-- Witness for C2 at a concrete stub: both candidates are rate-limited, the
result is Failure `"rate_limited"`, and both candidates were called. -/
theorem c2_witness :
    generate (fun _ => Attempt.response 429 ⟨none⟩) ⟨[], 50⟩ (["a"] ++ ["b"]) 600 =
      ((["a"] ++ ["b"]).map fun m => buildPayload m ⟨[], 50⟩ 600,
       .ok (.failure (transientKind
         ((fun _ => Attempt.response 429 ⟨none⟩) (buildPayload "b" ⟨[], 50⟩ 600))))) :=
  c2_all_transient _ _ _ ["a"] "b" (by decide)

/-- C4 counterexample: the claim says the empty candidate list yields the
dedicated `"no_candidates"` kind, but the code (line 47-48) returns the
generic `"failed"` kind. Zero upstream calls are indeed made. -/
theorem c4_counterexample :
    generate (fun _ => Attempt.timeout) ⟨[], 100⟩ [] 600 =
      ([], .ok (.failure "failed")) ∧ ("failed" : String) ≠ "no_candidates" :=
  ⟨rfl, by decide⟩

/-- C4 amended: for the empty candidate list, `generate` returns Failure with
the generic `"failed"` error kind (there is no dedicated no-candidates kind),
and zero upstream calls are made. -/
theorem c4_empty_candidates (u : Payload → Attempt) (req : LlmRequest)
    (c : Int) :
    generate u req [] c = ([], .ok (.failure "failed")) := rfl

/-- C3 counterexample: the claim's empty/absent-body row says an HTTP 200
whose extracted body is empty or absent stops with Failure `"failed"` after
exactly that one call.  For the outcome HTTP 200 with body
`{"choices": []}` the extracted body is absent, yet the code raises
`IndexError` (line 74) instead: the run ends in the escaping exception, not
in Failure `"failed"`. -/
theorem c3_counterexample :
    generateFrom (fun _ => Attempt.response 200 ⟨some []⟩) ⟨[], 10⟩ 600
        ["a", "b"] "failed" =
      ([buildPayload "a" ⟨[], 10⟩ 600], .error ()) ∧
    (Except.error () : Except Unit GenResult) ≠ .ok (.failure "failed") :=
  ⟨rfl, fun h => Except.noConfusion h⟩

/-- C3 amended: the outcome classification table, row by row, for the
candidate at the head of the loop with arbitrary candidates remaining:
timeout continues recording `"timeout"`; transport failure continues
recording `"upstream_error"`; HTTP 200 with non-empty extracted text stops
with Success; HTTP 200 whose extraction yields empty text (absent `choices`
key, absent `message`, absent or empty `content`) stops with Failure
`"failed"` after exactly that one call; HTTP 200 with a present-and-EMPTY
`choices` list instead raises `IndexError`, which escapes after exactly that
one call; 429 continues recording `"rate_limited"`; 5xx continues recording
`"upstream_error"`; any other HTTP status stops with Failure `"failed"`
after exactly that one call, even though candidates remain.  (The
conditions are mutually exclusive, so first-match-wins coincides with this
case analysis.) -/
theorem c3_classification_table (u : Payload → Attempt) (req : LlmRequest)
    (c : Int) (m : String) (rest : List String) (e : String) :
    (u (buildPayload m req c) = .timeout →
      generateFrom u req c (m :: rest) e =
        (buildPayload m req c :: (generateFrom u req c rest "timeout").1,
         (generateFrom u req c rest "timeout").2)) ∧
    (u (buildPayload m req c) = .transportError →
      generateFrom u req c (m :: rest) e =
        (buildPayload m req c :: (generateFrom u req c rest "upstream_error").1,
         (generateFrom u req c rest "upstream_error").2)) ∧
    (∀ body t, u (buildPayload m req c) = .response 200 body →
      extractText body = .ok t → t ≠ "" →
      generateFrom u req c (m :: rest) e =
        ([buildPayload m req c], .ok (.success t m))) ∧
    (∀ body, u (buildPayload m req c) = .response 200 body →
      extractText body = .ok "" →
      generateFrom u req c (m :: rest) e =
        ([buildPayload m req c], .ok (.failure "failed"))) ∧
    (∀ body, u (buildPayload m req c) = .response 200 body →
      extractText body = .error () →
      generateFrom u req c (m :: rest) e =
        ([buildPayload m req c], .error ())) ∧
    (∀ body, u (buildPayload m req c) = .response 429 body →
      generateFrom u req c (m :: rest) e =
        (buildPayload m req c :: (generateFrom u req c rest "rate_limited").1,
         (generateFrom u req c rest "rate_limited").2)) ∧
    (∀ status body, 500 ≤ status → status < 600 →
      u (buildPayload m req c) = .response status body →
      generateFrom u req c (m :: rest) e =
        (buildPayload m req c :: (generateFrom u req c rest "upstream_error").1,
         (generateFrom u req c rest "upstream_error").2)) ∧
    (∀ status body, status ≠ 200 → status ≠ 429 →
      ¬(500 ≤ status ∧ status < 600) →
      u (buildPayload m req c) = .response status body →
      generateFrom u req c (m :: rest) e =
        ([buildPayload m req c], .ok (.failure "failed"))) :=
  ⟨generateFrom_cons_timeout u req c m rest e,
   generateFrom_cons_transport u req c m rest e,
   fun body t h ht hne => generateFrom_cons_ok u req c m rest e body t h ht hne,
   fun body h ht => generateFrom_cons_empty u req c m rest e body h ht,
   fun body h ht => generateFrom_cons_exn u req c m rest e body h ht,
   fun body h => generateFrom_cons_429 u req c m rest e body h,
   fun status body h5 h6 h =>
     generateFrom_cons_5xx u req c m rest e body status h5 h6 h,
   fun status body h200 h429 h5 h =>
     generateFrom_cons_other u req c m rest e body status h200 h429 h5 h⟩

/-- Witness for C3: each row of the table instantiated at a concrete stub
upstream, with a second candidate `"b"` remaining in every case. -/
theorem c3_witness :
    (generateFrom (fun _ => Attempt.timeout) ⟨[], 10⟩ 600 ["a", "b"] "failed" =
      (buildPayload "a" ⟨[], 10⟩ 600 ::
        (generateFrom (fun _ => Attempt.timeout) ⟨[], 10⟩ 600 ["b"] "timeout").1,
       (generateFrom (fun _ => Attempt.timeout) ⟨[], 10⟩ 600 ["b"] "timeout").2)) ∧
    (generateFrom (fun _ => Attempt.transportError) ⟨[], 10⟩ 600 ["a", "b"]
        "failed" =
      (buildPayload "a" ⟨[], 10⟩ 600 ::
        (generateFrom (fun _ => Attempt.transportError) ⟨[], 10⟩ 600 ["b"]
          "upstream_error").1,
       (generateFrom (fun _ => Attempt.transportError) ⟨[], 10⟩ 600 ["b"]
         "upstream_error").2)) ∧
    (generateFrom (fun _ => Attempt.response 200 ⟨some [⟨some ⟨some "ok"⟩⟩]⟩)
        ⟨[], 10⟩ 600 ["a", "b"] "failed" =
      ([buildPayload "a" ⟨[], 10⟩ 600], .ok (.success "ok" "a"))) ∧
    (generateFrom (fun _ => Attempt.response 200 ⟨none⟩) ⟨[], 10⟩ 600
        ["a", "b"] "failed" =
      ([buildPayload "a" ⟨[], 10⟩ 600], .ok (.failure "failed"))) ∧
    (generateFrom (fun _ => Attempt.response 200 ⟨some []⟩) ⟨[], 10⟩ 600
        ["a", "d"] "failed" =
      ([buildPayload "a" ⟨[], 10⟩ 600], .error ())) ∧
    (generateFrom (fun _ => Attempt.response 429 ⟨none⟩) ⟨[], 10⟩ 600
        ["a", "b"] "failed" =
      (buildPayload "a" ⟨[], 10⟩ 600 ::
        (generateFrom (fun _ => Attempt.response 429 ⟨none⟩) ⟨[], 10⟩ 600 ["b"]
          "rate_limited").1,
       (generateFrom (fun _ => Attempt.response 429 ⟨none⟩) ⟨[], 10⟩ 600 ["b"]
         "rate_limited").2)) ∧
    (generateFrom (fun _ => Attempt.response 503 ⟨none⟩) ⟨[], 10⟩ 600
        ["a", "b"] "failed" =
      (buildPayload "a" ⟨[], 10⟩ 600 ::
        (generateFrom (fun _ => Attempt.response 503 ⟨none⟩) ⟨[], 10⟩ 600 ["b"]
          "upstream_error").1,
       (generateFrom (fun _ => Attempt.response 503 ⟨none⟩) ⟨[], 10⟩ 600 ["b"]
         "upstream_error").2)) ∧
    (generateFrom (fun _ => Attempt.response 400 ⟨none⟩) ⟨[], 10⟩ 600
        ["a", "b"] "failed" =
      ([buildPayload "a" ⟨[], 10⟩ 600], .ok (.failure "failed"))) :=
  ⟨(c3_classification_table _ _ _ _ _ _).1 rfl,
   (c3_classification_table _ _ _ _ _ _).2.1 rfl,
   (c3_classification_table _ _ _ _ _ _).2.2.1 ⟨some [⟨some ⟨some "ok"⟩⟩]⟩
     "ok" rfl rfl (by decide),
   (c3_classification_table _ _ _ _ _ _).2.2.2.1 ⟨none⟩ rfl rfl,
   (c3_classification_table _ _ _ _ _ _).2.2.2.2.1 ⟨some []⟩ rfl rfl,
   (c3_classification_table _ _ _ _ _ _).2.2.2.2.2.1 ⟨none⟩ rfl,
   (c3_classification_table _ _ _ _ _ _).2.2.2.2.2.2.1 503 ⟨none⟩ (by decide)
     (by decide) rfl,
   (c3_classification_table _ _ _ _ _ _).2.2.2.2.2.2.2 400 ⟨none⟩ (by decide)
     (by decide) (by decide) rfl⟩

/-- C5 counterexample: an HTTP 200 whose body has a present but EMPTY
`choices` list is not treated as empty content — `[0]` raises `IndexError`
(line 74), and the exception escapes the handler instead of a normal result. -/
theorem c5_counterexample :
    (generate (fun _ => Attempt.response 200 ⟨some []⟩) ⟨[], 100⟩ ["m"] 600).2 =
      .error () := rfl

/-- If text extraction raises, the body's `choices` list was present and
empty. -/
theorem extractText_error (b : Body) (e : Unit) (h : extractText b = .error e) :
    b.choices = some [] := by
  rcases b with ⟨_ | ⟨_ | ⟨ch, tl⟩⟩⟩ <;> simp [extractText] at h ⊢

/-- Runs in which no 200-response carries an empty `choices` list return
normally. -/
theorem generateFrom_no_exn (u : Payload → Attempt) (req : LlmRequest)
    (c : Int) (h : ∀ p body, u p = .response 200 body → body.choices ≠ some []) :
    ∀ (cs : List String) (e : String),
      ∃ r, (generateFrom u req c cs e).2 = .ok r := by
  intro cs
  induction cs with
  | nil => intro e; exact ⟨.failure e, rfl⟩
  | cons m rest ih =>
    intro e
    rcases generateFrom_cons_shape u req c m rest e with
      ⟨body, t, ha, ht, hne, heq⟩ | heq | ⟨body, ha, ht, heq⟩ | ⟨e2, _, heq⟩
    · exact ⟨.success t m, by rw [heq]⟩
    · exact ⟨.failure "failed", by rw [heq]⟩
    · exact absurd (extractText_error body () ht) (h _ body ha)
    · obtain ⟨r, hr⟩ := ih e2
      exact ⟨r, by rw [heq]; exact hr⟩

/-- C5 amended: extraction of the text from a 200 body treats an absent
`choices` key, an absent `message` field and an absent `content` field as
empty content, but a present-and-empty `choices` list raises an `IndexError`
that escapes the handler as an exception; on every run in which no
200-response carries an empty `choices` list, `generate` returns a normal
result (never an exception). -/
theorem c5_extraction (u : Payload → Attempt) (req : LlmRequest)
    (cs : List String) (c : Int)
    (h : ∀ p body, u p = .response 200 body → body.choices ≠ some []) :
    (extractText ⟨none⟩ = .ok "") ∧
    (∀ tail, extractText ⟨some (⟨none⟩ :: tail)⟩ = .ok "") ∧
    (∀ tail, extractText ⟨some (⟨some ⟨none⟩⟩ :: tail)⟩ = .ok "") ∧
    (extractText ⟨some []⟩ = .error ()) ∧
    (∃ r, (generate u req cs c).2 = .ok r) := by
  refine ⟨rfl, fun tail => rfl, fun tail => rfl, rfl, ?_⟩
  cases cs with
  | nil => exact ⟨.failure "failed", rfl⟩
  | cons m rest =>
    rw [generate, if_neg (by simp)]
    exact generateFrom_no_exn u req c h (m :: rest) "failed"

/-- Witness for C5 at a concrete stub that never answers 200 (hypothesis
holds vacuously), with one candidate. -/
theorem c5_witness :
    (extractText ⟨none⟩ = .ok "") ∧
    (∀ tail, extractText ⟨some (⟨none⟩ :: tail)⟩ = .ok "") ∧
    (∀ tail, extractText ⟨some (⟨some ⟨none⟩⟩ :: tail)⟩ = .ok "") ∧
    (extractText ⟨some []⟩ = .error ()) ∧
    (∃ r, (generate (fun _ => Attempt.response 404 ⟨none⟩) ⟨[], 20⟩ ["a"] 600).2 =
      .ok r) :=
  c5_extraction (fun _ => Attempt.response 404 ⟨none⟩) ⟨[], 20⟩ ["a"] 600
    (fun p body hp => by cases hp)

/-- The loop never returns Success with empty text, and a Success carries the
candidate whose 200-response produced the text. -/
theorem generateFrom_success_inv (u : Payload → Attempt) (req : LlmRequest)
    (c : Int) :
    ∀ (cs : List String) (e t m : String),
      (generateFrom u req c cs e).2 = .ok (.success t m) →
      t ≠ "" ∧ m ∈ cs ∧ ∃ body, u (buildPayload m req c) = .response 200 body ∧
        extractText body = .ok t := by
  intro cs
  induction cs with
  | nil => intro e t m h; simp [generateFrom] at h
  | cons m0 rest ih =>
    intro e t m h
    rcases generateFrom_cons_shape u req c m0 rest e with
      ⟨body, t0, ha, ht, hne, heq⟩ | heq | ⟨body, ha, ht, heq⟩ | ⟨e2, _, heq⟩ <;>
      rw [heq] at h
    · simp only [Except.ok.injEq, GenResult.success.injEq] at h
      obtain ⟨ht0, hm0⟩ := h
      subst ht0; subst hm0
      exact ⟨hne, List.mem_cons_self m0 rest, body, ha, ht⟩
    · simp at h
    · simp at h
    · obtain ⟨hne, hmem, hb⟩ := ih e2 t m h
      exact ⟨hne, List.mem_cons_of_mem m0 hmem, hb⟩

/-- C6: `generate` never returns Success with empty text; whenever the result
is Success, its text is non-empty and `model_used` is one of the candidates,
namely the one whose 200-response yielded that text. -/
theorem c6_success_nonempty (u : Payload → Attempt) (req : LlmRequest)
    (cs : List String) (c : Int) (t m : String)
    (h : (generate u req cs c).2 = .ok (.success t m)) :
    t ≠ "" ∧ m ∈ cs ∧ ∃ body, u (buildPayload m req c) = .response 200 body ∧
      extractText body = .ok t := by
  cases cs with
  | nil => simp [generate] at h
  | cons m0 rest =>
    rw [generate, if_neg (by simp)] at h
    exact generateFrom_success_inv u req c (m0 :: rest) "failed" t m h

/-- Witness for C6 at a concrete stub whose single candidate answers 200
with text `"hi"`. -/
theorem c6_witness :
    ("hi" : String) ≠ "" ∧ "a" ∈ ["a"] ∧
    ∃ body, (fun _ => Attempt.response 200 ⟨some [⟨some ⟨some "hi"⟩⟩]⟩)
        (buildPayload "a" ⟨[], 5⟩ 600) = Attempt.response 200 body ∧
      extractText body = .ok "hi" :=
  c6_success_nonempty (fun _ => Attempt.response 200 ⟨some [⟨some ⟨some "hi"⟩⟩]⟩)
    ⟨[], 5⟩ ["a"] 600 "hi" "a" rfl

/-- C7: every payload sent upstream, whichever candidate it is for, carries
`max_tokens = min(requested, ceiling)` (line 61). -/
theorem c7_max_tokens (u : Payload → Attempt) (req : LlmRequest)
    (cs : List String) (c : Int) (p : Payload)
    (hp : p ∈ (generate u req cs c).1) :
    p.max_tokens = min req.max_tokens c := by
  cases cs with
  | nil => simp [generate] at hp
  | cons m rest =>
    rw [generate, if_neg (by simp)] at hp
    obtain ⟨m2, _, hpe⟩ := mem_calls u req c (m :: rest) "failed" p hp
    subst hpe
    rfl

/-- Witness for C7: with requested 100 and ceiling 600, the one payload sent
carries `min 100 600`. -/
theorem c7_witness :
    (buildPayload "a" ⟨[], 100⟩ 600).max_tokens = min (100 : Int) 600 :=
  c7_max_tokens (fun _ => Attempt.timeout) ⟨[], 100⟩ ["a"] 600
    (buildPayload "a" ⟨[], 100⟩ 600) (by decide)

/-- C8 counterexample: the claim says every run yields one of the two result
shapes, but a 200-response with an empty `choices` list makes the run end in
the escaping `IndexError`, which is neither shape. -/
theorem c8_counterexample :
    (generate
      (fun p => if p.model = "a" then Attempt.timeout
        else .response 200 ⟨some []⟩) ⟨[], 50⟩ ["a", "b"] 600).2 =
      .error () ∧
    ∀ r : GenResult, (Except.error () : Except Unit GenResult) ≠ .ok r :=
  ⟨rfl, fun _ h => Except.noConfusion h⟩

/-- Every normal result of the loop, started with a `last_error` drawn from
the four-kind taxonomy, is Success or a Failure whose kind stays in the
taxonomy. -/
theorem generateFrom_error_taxonomy (u : Payload → Attempt) (req : LlmRequest)
    (c : Int) :
    ∀ (cs : List String) (e : String),
      (e = "failed" ∨ e = "timeout" ∨ e = "upstream_error" ∨
        e = "rate_limited") →
      ∀ r, (generateFrom u req c cs e).2 = .ok r →
      (∃ t m, r = .success t m) ∨
      (∃ k, r = .failure k ∧
        (k = "failed" ∨ k = "timeout" ∨ k = "upstream_error" ∨
          k = "rate_limited")) := by
  intro cs
  induction cs with
  | nil =>
    intro e he r h
    simp only [generateFrom, Except.ok.injEq] at h
    exact .inr ⟨e, h.symm, he⟩
  | cons m rest ih =>
    intro e he r h
    rcases generateFrom_cons_shape u req c m rest e with
      ⟨body, t, ha, ht, hne, heq⟩ | heq | ⟨body, ha, ht, heq⟩ | ⟨e2, he2, heq⟩ <;>
      rw [heq] at h
    · simp only [Except.ok.injEq] at h
      exact .inl ⟨t, m, h.symm⟩
    · simp only [Except.ok.injEq] at h
      exact .inr ⟨"failed", h.symm, .inl rfl⟩
    · simp at h
    · exact ih e2 (.inr he2) r h

/-- C8 amended: whenever `generate` returns a normal (non-exception) result,
that result is either Success or Failure with `error_type` in
`{failed, timeout, upstream_error, rate_limited}`; `no_candidates` is never
returned, and the only other possible ending is the escaping `IndexError`. -/
theorem c8_result_taxonomy (u : Payload → Attempt) (req : LlmRequest)
    (cs : List String) (c : Int) (r : GenResult)
    (h : (generate u req cs c).2 = .ok r) :
    (∃ t m, r = .success t m) ∨
    (∃ k, r = .failure k ∧
      (k = "failed" ∨ k = "timeout" ∨ k = "upstream_error" ∨
        k = "rate_limited")) := by
  cases cs with
  | nil =>
    simp only [generate, List.isEmpty_nil, if_true, Except.ok.injEq] at h
    exact .inr ⟨"failed", h.symm, .inl rfl⟩
  | cons m rest =>
    rw [generate, if_neg (by simp)] at h
    exact generateFrom_error_taxonomy u req c (m :: rest) "failed" (.inl rfl) r h

/-- Witness for C8 at a concrete stub: a single rate-limited candidate yields
Failure `"rate_limited"`, which is in the taxonomy. -/
theorem c8_witness :
    (∃ t m, GenResult.failure "rate_limited" = .success t m) ∨
    (∃ k, GenResult.failure "rate_limited" = .failure k ∧
      (k = "failed" ∨ k = "timeout" ∨ k = "upstream_error" ∨
        k = "rate_limited")) :=
  c8_result_taxonomy (fun _ => Attempt.response 429 ⟨none⟩) ⟨[], 30⟩ ["a"] 600
    (.failure "rate_limited") rfl

/-- C9: `generate` is deterministic in its input and the upstream's
responses: two runs over upstream stubs that agree on every payload produce
the same result and the same number of upstream calls. -/
theorem c9_deterministic (u1 u2 : Payload → Attempt) (req : LlmRequest)
    (cs : List String) (c : Int) (h : ∀ p, u1 p = u2 p) :
    generate u1 req cs c = generate u2 req cs c ∧
    (generate u1 req cs c).1.length = (generate u2 req cs c).1.length := by
  have hu : u1 = u2 := funext h
  subst hu
  exact ⟨rfl, rfl⟩

/-- Witness for C9 with two pointwise-equal concrete stubs. -/
theorem c9_witness :
    generate (fun _ => Attempt.timeout) ⟨[], 40⟩ ["a", "b"] 600 =
      generate (fun _p => Attempt.timeout) ⟨[], 40⟩ ["a", "b"] 600 ∧
    (generate (fun _ => Attempt.timeout) ⟨[], 40⟩ ["a", "b"] 600).1.length =
      (generate (fun _p => Attempt.timeout) ⟨[], 40⟩ ["a", "b"] 600).1.length :=
  c9_deterministic (fun _ => Attempt.timeout) (fun _p => Attempt.timeout)
    ⟨[], 40⟩ ["a", "b"] 600 (fun _ => rfl)

/-- C10: no positivity check on the requested `max_tokens`: with a
non-positive request and a positive ceiling, every payload sent upstream
carries exactly the non-positive requested value, and a non-empty candidate
list still produces at least one upstream call (the request is not
rejected). -/
theorem c10_no_positivity_check (u : Payload → Attempt) (req : LlmRequest)
    (cs : List String) (c : Int) (hmt : req.max_tokens ≤ 0) (hc : 0 < c) :
    (∀ p ∈ (generate u req cs c).1, p.max_tokens = req.max_tokens) ∧
    (cs ≠ [] → (generate u req cs c).1 ≠ []) := by
  constructor
  · intro p hp
    cases cs with
    | nil => simp [generate] at hp
    | cons m rest =>
      rw [generate, if_neg (by simp)] at hp
      obtain ⟨m2, _, hpe⟩ := mem_calls u req c (m :: rest) "failed" p hp
      subst hpe
      show min req.max_tokens c = req.max_tokens
      exact min_eq_left (le_trans hmt (le_of_lt hc))
  · intro hne
    cases cs with
    | nil => exact absurd rfl hne
    | cons m rest =>
      rw [generate, if_neg (by simp)]
      exact calls_ne_nil u req c m rest "failed"

/-- Witness for C10: a request for `-5` tokens against ceiling 600 is sent
upstream as `-5`, and the single candidate is indeed called. -/
theorem c10_witness :
    (buildPayload "a" ⟨[], -5⟩ 600).max_tokens = (-5 : Int) ∧
    (generate (fun _ => Attempt.timeout) ⟨[], -5⟩ ["a"] 600).1 ≠ [] :=
  ⟨(c10_no_positivity_check (fun _ => Attempt.timeout) ⟨[], -5⟩ ["a"] 600
      (by decide) (by decide)).1 (buildPayload "a" ⟨[], -5⟩ 600) (by decide),
   (c10_no_positivity_check (fun _ => Attempt.timeout) ⟨[], -5⟩ ["a"] 600
      (by decide) (by decide)).2 (by decide)⟩

end TalkWithPucha
